import Mathlib

/-!
Verification of the SolanaM image-studio extension:
crop geometry, filter composition, format catalog, compression
accounting and file validation, shallowly embedded from the source.
-/

namespace Solanam

/-- Model of `CropSettings` from `CropManager`: a percentage-based crop
rectangle. -/
structure CropSettings where
  x : ℚ
  y : ℚ
  width : ℚ
  height : ℚ
  enabled : Bool
deriving DecidableEq, Repr

/-- The initial and reset value of the crop settings. -/
def defaultCrop : CropSettings :=
  { x := 0, y := 0, width := 100, height := 100, enabled := false }

/-- Model of `CropManager.resetCrop`: replaces the state with the default
rectangle. -/
def resetCrop (_s : CropSettings) : CropSettings :=
  defaultCrop

/-- The geometric bounds the spec requires of every crop rectangle. -/
def cropInvariant (s : CropSettings) : Prop :=
  0 ≤ s.x ∧ 0 ≤ s.y ∧ 10 ≤ s.width ∧ 10 ≤ s.height ∧
    s.x + s.width ≤ 100 ∧ s.y + s.height ≤ 100

instance (s : CropSettings) : Decidable (cropInvariant s) := by
  unfold cropInvariant; infer_instance

/-- The interaction modes of `addCropInteractivity`: dragging the box body,
or resizing by one of the eight handles. -/
inductive DragMode
  | move | nw | ne | sw | se | n | s | w | e
deriving DecidableEq, Repr

/-- One `mousemove` step of `CropManager.addCropInteractivity`, translated
from the source: `start` is the snapshot taken at `mousedown` (equal to the
current settings for a single delta), `dX`/`dY` are
`deltaXPercent`/`deltaYPercent`. -/
def cropUpdate (start : CropSettings) (mode : DragMode) (dX dY : ℚ) :
    CropSettings :=
  match mode with
  | .move =>
      { start with
        x := max 0 (min (100 - start.width) (start.x + dX)),
        y := max 0 (min (100 - start.height) (start.y + dY)) }
  | .se =>
      { start with
        width := max 10 (min (100 - start.x) (start.width + dX)),
        height := max 10 (min (100 - start.y) (start.height + dY)) }
  | .nw =>
      let newWidth := max 10 (start.width - dX)
      let newHeight := max 10 (start.height - dY)
      { start with
        x := max 0 (start.x + (start.width - newWidth)),
        y := max 0 (start.y + (start.height - newHeight)),
        width := newWidth,
        height := newHeight }
  | .ne =>
      let newHeightNE := max 10 (start.height - dY)
      { start with
        width := max 10 (min (100 - start.x) (start.width + dX)),
        y := max 0 (start.y + (start.height - newHeightNE)),
        height := newHeightNE }
  | .sw =>
      let newWidthSW := max 10 (start.width - dX)
      { start with
        x := max 0 (start.x + (start.width - newWidthSW)),
        width := newWidthSW,
        height := max 10 (min (100 - start.y) (start.height + dY)) }
  | .n =>
      let newHeightN := max 10 (start.height - dY)
      { start with
        y := max 0 (start.y + (start.height - newHeightN)),
        height := newHeightN }
  | .s =>
      { start with
        height := max 10 (min (100 - start.y) (start.height + dY)) }
  | .w =>
      let newWidthW := max 10 (start.width - dX)
      { start with
        x := max 0 (start.x + (start.width - newWidthW)),
        width := newWidthW }
  | .e =>
      { start with
        width := max 10 (min (100 - start.x) (start.width + dX)) }

/-- Model of the `Partial CropSettings` argument of
`CropManager.setCropSettings`: each field is optionally present. -/
structure CropPatch where
  x : Option ℚ := none
  y : Option ℚ := none
  width : Option ℚ := none
  height : Option ℚ := none
  enabled : Option Bool := none
deriving DecidableEq, Repr

/-- Model of `CropManager.setCropSettings`: the object-spread merge
`this.cropSettings = { ...this.cropSettings, ...settings }` — a field
present in the patch overrides, an absent field keeps its current value. -/
def setCropSettings (s : CropSettings) (p : CropPatch) : CropSettings :=
  { x := p.x.getD s.x
    y := p.y.getD s.y
    width := p.width.getD s.width
    height := p.height.getD s.height
    enabled := p.enabled.getD s.enabled }

/-- A tiny object heap for the aliasing claim about `getCropSettings`:
addresses are naturals, every address below `next` is allocated. -/
structure Heap where
  store : ℕ → CropSettings
  next : ℕ

/-- Reading the object stored at address `a`. -/
def Heap.read (h : Heap) (a : ℕ) : CropSettings :=
  h.store a

/-- Mutating the object stored at address `a` in place. -/
def Heap.write (h : Heap) (a : ℕ) (v : CropSettings) : Heap :=
  ⟨fun b => if b = a then v else h.store b, h.next⟩

/-- Allocating a fresh object holding value `v`. -/
def Heap.alloc (h : Heap) (v : CropSettings) : ℕ × Heap :=
  (h.next, ⟨fun b => if b = h.next then v else h.store b, h.next + 1⟩)

/-- Model of `CropManager.getCropSettings` on a manager whose settings
object lives at address `m`: `return { ...this.cropSettings }` allocates a
fresh copy of the current settings and returns its address. -/
def getCropSettingsAlloc (m : ℕ) (h : Heap) : ℕ × Heap :=
  h.alloc (h.read m)

/-- Arguments of a `ctx.drawImage` call in the source-rect/dest-rect form:
source rectangle `(sx, sy, sw, sh)` drawn to destination rectangle
`(dx, dy, dw, dh)`. -/
structure DrawArgs where
  sx : ℚ
  sy : ℚ
  sw : ℚ
  sh : ℚ
  dx : ℚ
  dy : ℚ
  dw : ℚ
  dh : ℚ
deriving DecidableEq, Repr

/-- Observable output of `CropManager.applyCrop`: the canvas dimensions,
the single `drawImage` call issued, and the `croppedWidth`/`croppedHeight`
fields of the returned `CropResult`. -/
structure CropOutput where
  canvasWidth : ℚ
  canvasHeight : ℚ
  draw : DrawArgs
  croppedWidth : ℚ
  croppedHeight : ℚ
deriving DecidableEq, Repr

/-- Model of `CropManager.applyCrop`, translated from the source. When crop
is disabled the canvas takes the source's natural size and
`ctx.drawImage(sourceImage, 0, 0)` draws the full image at natural size at
the origin. When enabled, the percentage rectangle is converted to pixels
against the natural dimensions and exactly that sub-rectangle is drawn onto
a canvas of the cropped size. -/
def applyCrop (s : CropSettings) (naturalWidth naturalHeight : ℚ) :
    CropOutput :=
  if s.enabled then
    let cropX := s.x / 100 * naturalWidth
    let cropY := s.y / 100 * naturalHeight
    let cropWidth := s.width / 100 * naturalWidth
    let cropHeight := s.height / 100 * naturalHeight
    { canvasWidth := cropWidth
      canvasHeight := cropHeight
      draw := ⟨cropX, cropY, cropWidth, cropHeight, 0, 0, cropWidth, cropHeight⟩
      croppedWidth := cropWidth
      croppedHeight := cropHeight }
  else
    { canvasWidth := naturalWidth
      canvasHeight := naturalHeight
      draw := ⟨0, 0, naturalWidth, naturalHeight, 0, 0, naturalWidth, naturalHeight⟩
      croppedWidth := naturalWidth
      croppedHeight := naturalHeight }

/-- Model of `FormatInfo` from `CompressionManager`. -/
structure FormatInfo where
  extension : String
  mimeType : String
  supportsQuality : Bool
  description : String
deriving DecidableEq, Repr

/-- The `jpeg` entry of the format catalog. -/
def jpegInfo : FormatInfo :=
  ⟨"jpg", "image/jpeg", true, "Best for photos"⟩

/-- The own properties of the `CompressionManager.formatMap` object
literal: the eight known format names map to their descriptors, and the
literal has no other own key. Bracket lookup on the object additionally
resolves members inherited from `Object.prototype`; that full semantics is
`formatMapIndex` below. -/
def formatMap (format : String) : Option FormatInfo :=
  if format = "jpeg" then some jpegInfo
  else if format = "png" then some ⟨"png", "image/png", false, "Best for graphics"⟩
  else if format = "webp" then some ⟨"webp", "image/webp", true, "Modern format"⟩
  else if format = "avif" then some ⟨"avif", "image/avif", true, "Next-gen format"⟩
  else if format = "bmp" then some ⟨"bmp", "image/bmp", false, "Uncompressed"⟩
  else if format = "tiff" then some ⟨"tiff", "image/tiff", false, "High quality"⟩
  else if format = "ico" then some ⟨"ico", "image/x-icon", false, "Icon format"⟩
  else if format = "svg" then some ⟨"svg", "image/svg+xml", false, "Vector format"⟩
  else none

/-- Own-property reading of `CompressionManager.getFormatInfo`
(`this.formatMap[format] || this.formatMap.jpeg`): every descriptor object
is truthy, so a name that is no own key falls back to the `jpeg` entry.
This reading is faithful exactly when `format` is not a member name
inherited from `Object.prototype`; `getFormatInfoJs` below gives the full
bracket-lookup semantics including the prototype chain. -/
def getFormatInfo (format : String) : FormatInfo :=
  (formatMap format).getD jpegInfo

/-- The member names every plain object literal inherits from
`Object.prototype` (the standard methods plus the Annex B accessors); the
value found under each of them is a function or the prototype object, so
it is truthy and is not a format descriptor. -/
def objectProtoMemberNames : List String :=
  ["constructor", "hasOwnProperty", "isPrototypeOf", "propertyIsEnumerable",
   "toLocaleString", "toString", "valueOf", "__proto__",
   "__defineGetter__", "__defineSetter__", "__lookupGetter__",
   "__lookupSetter__"]

/-- Result of a JS bracket lookup on the `formatMap` object literal: an own
format descriptor, a truthy member inherited from `Object.prototype`, or
`undefined`. -/
inductive JsLookup where
  | descriptor (fi : FormatInfo)
  | protoMember (name : String)
  | undefined
deriving DecidableEq, Repr

/-- Truthiness of a lookup result: only `undefined` is falsy. -/
def JsLookup.truthy : JsLookup → Bool
  | .undefined => false
  | _ => true

/-- Full semantics of `this.formatMap[format]`: own properties first, then
the members inherited from `Object.prototype`, else `undefined`. -/
def formatMapIndex (format : String) : JsLookup :=
  match formatMap format with
  | some fi => .descriptor fi
  | none =>
      if format ∈ objectProtoMemberNames then .protoMember format
      else .undefined

/-- Model of `CompressionManager.getFormatInfo` under the full bracket
lookup: `this.formatMap[format] || this.formatMap.jpeg` falls back to the
`jpeg` entry only when the lookup result is falsy — an inherited
`Object.prototype` member is truthy and is returned as-is. -/
def getFormatInfoJs (format : String) : JsLookup :=
  if (formatMapIndex format).truthy then formatMapIndex format
  else .descriptor jpegInfo

/-- Model of `CompressionOptions` from `CompressionManager`. -/
structure CompressionOptions where
  quality : ℚ
  format : String
  maintainAspectRatio : Bool
deriving DecidableEq, Repr

/-- An abstract source image: its natural dimensions plus an opaque tag
standing for its pixel content. -/
structure SourceImage where
  naturalWidth : ℚ
  naturalHeight : ℚ
  data : ℕ
deriving DecidableEq, Repr

/-- The deterministic arguments `CompressionManager.compressImage` passes
to `canvas.toBlob`: the canvas holds the image drawn at natural size, and
the encoder receives the format's MIME type and the effective quality. -/
structure EncodeRequest where
  image : ℕ
  width : ℚ
  height : ℚ
  mimeType : String
  quality : ℚ
deriving DecidableEq, Repr

/-- Model of the encode request built by `CompressionManager.compressImage`:
`quality = formatInfo.supportsQuality ? options.quality / 100 : 1`. -/
def compressEncodeArgs (img : SourceImage) (options : CompressionOptions) :
    EncodeRequest :=
  let formatInfo := getFormatInfo options.format
  { image := img.data
    width := img.naturalWidth
    height := img.naturalHeight
    mimeType := formatInfo.mimeType
    quality := if formatInfo.supportsQuality then options.quality / 100 else 1 }

/-- Model of the compression-ratio computation in
`CompressionManager.compressImage`:
`((originalSize - blob.size) / originalSize) * 100`. -/
def compressionRatio (originalSize compressedSize : ℚ) : ℚ :=
  ((originalSize - compressedSize) / originalSize) * 100

/-- Model of `FileValidation` from `FileHandler`. -/
structure FileValidation where
  valid : Bool
  error : Option String := none
deriving DecidableEq, Repr

/-- An uploaded file as `FileHandler.validateImageFile` observes it: its
MIME type string and its byte size. -/
structure FileDesc where
  type : String
  size : ℕ
deriving DecidableEq, Repr

/-- Model of `FileHandler.maxFileSize`: 10 MiB. -/
def maxFileSize : ℕ := 10 * 1024 * 1024

/-- Model of `FileHandler.allowedTypes`. -/
def allowedTypes : List String :=
  ["image/jpeg", "image/jpg", "image/png", "image/webp", "image/gif",
   "image/bmp", "image/tiff", "image/avif", "image/svg+xml", "image/x-icon"]

/-- The type-rejection message of `FileHandler.validateImageFile`. -/
def typeErrorMsg : String :=
  "Please select a valid image file (JPEG, PNG, WebP, GIF, BMP, TIFF)"

/-- The size-rejection message of `FileHandler.validateImageFile`. -/
def sizeErrorMsg : String :=
  "File size must be less than 10MB"

/-- Model of `FileHandler.validateImageFile`, translated from the source. -/
def validateImageFile (file : FileDesc) : FileValidation :=
  if file.type ∉ allowedTypes then
    { valid := false, error := some typeErrorMsg }
  else if file.size > maxFileSize then
    { valid := false, error := some sizeErrorMsg }
  else
    { valid := true }

/-- Model of `FilterOptions` from `FilterManager`. -/
structure FilterOptions where
  brightness : ℚ
  contrast : ℚ
  saturation : ℚ
  blur : ℚ
  filter : String
deriving DecidableEq, Repr

/-- Model of the preset `switch` of `FilterManager.applyFilters`: each
recognized preset name pushes its filter functions onto the accumulated
array, in source order; an unrecognized name pushes nothing. -/
def applyPresetPush (filters : Array String) (name : String) : Array String :=
  if name = "grayscale" then filters.push "grayscale(100%)"
  else if name = "sepia" then filters.push "sepia(100%)"
  else if name = "vintage" then
    ((filters.push "sepia(50%)").push "contrast(120%)").push "brightness(90%)"
  else if name = "cool" then
    (filters.push "hue-rotate(180deg)").push "saturate(120%)"
  else if name = "warm" then
    ((filters.push "hue-rotate(30deg)").push "saturate(110%)").push "brightness(110%)"
  else if name = "noir" then
    ((filters.push "grayscale(100%)").push "contrast(150%)").push "brightness(80%)"
  else if name = "vivid" then
    ((filters.push "saturate(150%)").push "contrast(110%)").push "brightness(105%)"
  else filters

/-- Model of the filter array built by `FilterManager.applyFilters`,
translated from the source: numeric adjustments are pushed when not at
their neutral value (`!== 100` for the percentages, `> 0` for blur), then
the preset functions. -/
def filterList (o : FilterOptions) : Array String :=
  let filters : Array String := #[]
  let filters :=
    if o.brightness ≠ 100 then
      filters.push ("brightness(" ++ toString o.brightness ++ "%)")
    else filters
  let filters :=
    if o.contrast ≠ 100 then
      filters.push ("contrast(" ++ toString o.contrast ++ "%)")
    else filters
  let filters :=
    if o.saturation ≠ 100 then
      filters.push ("saturate(" ++ toString o.saturation ++ "%)")
    else filters
  let filters :=
    if o.blur > 0 then
      filters.push ("blur(" ++ toString o.blur ++ "px)")
    else filters
  applyPresetPush filters o.filter

/-- Model of the string assigned to `element.style.filter` by
`FilterManager.applyFilters`: `filters.join(' ')`. -/
def applyFilters (o : FilterOptions) : String :=
  String.intercalate " " (filterList o).toList

/-- The preset expansion table exactly as the spec lists it. -/
def presetFilters (name : String) : List String :=
  if name = "grayscale" then ["grayscale(100%)"]
  else if name = "sepia" then ["sepia(100%)"]
  else if name = "vintage" then
    ["sepia(50%)", "contrast(120%)", "brightness(90%)"]
  else if name = "cool" then
    ["hue-rotate(180deg)", "saturate(120%)"]
  else if name = "warm" then
    ["hue-rotate(30deg)", "saturate(110%)", "brightness(110%)"]
  else if name = "noir" then
    ["grayscale(100%)", "contrast(150%)", "brightness(80%)"]
  else if name = "vivid" then
    ["saturate(150%)", "contrast(110%)", "brightness(105%)"]
  else []

/-- The seven recognized preset names. -/
def presetNames : List String :=
  ["grayscale", "sepia", "vintage", "cool", "warm", "noir", "vivid"]

/-- The filter chain exactly as the claim words it: each numeric adjustment
is omitted at its neutral default (100, respectively 0 for blur — so blur
appears whenever it is nonzero), the preset functions appended last. -/
def claimFilterChain (o : FilterOptions) : List String :=
  (if o.brightness = 100 then []
   else ["brightness(" ++ toString o.brightness ++ "%)"]) ++
  (if o.contrast = 100 then []
   else ["contrast(" ++ toString o.contrast ++ "%)"]) ++
  (if o.saturation = 100 then []
   else ["saturate(" ++ toString o.saturation ++ "%)"]) ++
  (if o.blur = 0 then []
   else ["blur(" ++ toString o.blur ++ "px)"]) ++
  presetFilters o.filter

/-- The filter chain as the amended claim words it: identical to
`claimFilterChain` except that blur contributes only when it is
strictly positive. -/
def amendedFilterChain (o : FilterOptions) : List String :=
  (if o.brightness = 100 then []
   else ["brightness(" ++ toString o.brightness ++ "%)"]) ++
  (if o.contrast = 100 then []
   else ["contrast(" ++ toString o.contrast ++ "%)"]) ++
  (if o.saturation = 100 then []
   else ["saturate(" ++ toString o.saturation ++ "%)"]) ++
  (if 0 < o.blur then ["blur(" ++ toString o.blur ++ "px)"]
   else []) ++
  presetFilters o.filter

/-- The preset pushes of the source agree with the spec's expansion table:
`applyPresetPush` appends exactly `presetFilters name`. -/
lemma applyPresetPush_toList (filters : Array String) (name : String) :
    (applyPresetPush filters name).toList =
      filters.toList ++ presetFilters name := by
  unfold applyPresetPush presetFilters
  split_ifs <;> simp

/-- The array built by the source equals the amended claim's chain. -/
lemma filterList_toList (o : FilterOptions) :
    (filterList o).toList = amendedFilterChain o := by
  unfold filterList amendedFilterChain
  simp only [ne_eq, ite_not, applyPresetPush_toList]
  split_ifs <;> simp

/-- A name outside the preset table expands to no filter function. -/
lemma presetFilters_of_not_mem (name : String) (h : name ∉ presetNames) :
    presetFilters name = [] := by
  unfold presetFilters
  simp only [presetNames, List.mem_cons, List.not_mem_nil, or_false] at h
  push_neg at h
  obtain ⟨h1, h2, h3, h4, h5, h6, h7⟩ := h
  simp [h1, h2, h3, h4, h5, h6, h7]

/-- C8: resetting the Crop Engine from any prior state yields exactly
`{x: 0, y: 0, width: 100, height: 100, enabled: false}`. -/
theorem resetCrop_restores_default (s : CropSettings) :
    resetCrop s = { x := 0, y := 0, width := 100, height := 100, enabled := false } :=
  rfl

/-- C3: for positive original size the compression ratio equals
`(original - compressed) / original * 100` as exact rational arithmetic;
1000→750 gives 25 and 1000→1200 gives -20. -/
theorem compressionRatio_spec :
    (∀ originalSize compressedSize : ℚ, 0 < originalSize →
      compressionRatio originalSize compressedSize =
        (originalSize - compressedSize) / originalSize * 100) ∧
    compressionRatio 1000 750 = 25 ∧
    compressionRatio 1000 1200 = -20 := by
  refine ⟨fun o c _ => rfl, ?_, ?_⟩ <;> norm_num [compressionRatio]

/-- Witness for C3 at original 1000, compressed 750. -/
theorem compressionRatio_spec_witness :
    compressionRatio 1000 750 = (1000 - 750) / 1000 * 100 :=
  compressionRatio_spec.1 1000 750 (by norm_num)

/-- C6 counterexample: at the non-catalog string "constructor" the bracket
lookup finds the truthy member inherited from `Object.prototype`, so the
jpeg fallback does not engage — the source returns the inherited value,
not the jpeg descriptor. -/
theorem getFormatInfo_proto_counterexample :
    getFormatInfoJs "constructor" = JsLookup.protoMember "constructor" ∧
    getFormatInfoJs "constructor" ≠ JsLookup.descriptor jpegInfo := by
  refine ⟨?_, ?_⟩ <;> decide

/-- C6 amended: an own catalog key returns its own descriptor (so each of
the eight known names returns its catalog entry), any string that is
neither a catalog key nor an `Object.prototype` member name (such as
"foo") falls back to the jpeg descriptor, an inherited member name returns
the inherited prototype member instead, and away from the inherited names
the full lookup agrees with the own-property reading `getFormatInfo`. -/
theorem getFormatInfo_jpeg_fallback_amended :
    (∀ s fi, formatMap s = some fi →
      getFormatInfoJs s = JsLookup.descriptor fi) ∧
    (∀ s, formatMap s = none → s ∉ objectProtoMemberNames →
      getFormatInfoJs s = JsLookup.descriptor jpegInfo) ∧
    (∀ s, s ∈ objectProtoMemberNames →
      getFormatInfoJs s = JsLookup.protoMember s) ∧
    (∀ s, s ∉ objectProtoMemberNames →
      getFormatInfoJs s = JsLookup.descriptor (getFormatInfo s)) ∧
    getFormatInfoJs "jpeg" = JsLookup.descriptor jpegInfo ∧
    getFormatInfoJs "png" =
      JsLookup.descriptor ⟨"png", "image/png", false, "Best for graphics"⟩ ∧
    getFormatInfoJs "webp" =
      JsLookup.descriptor ⟨"webp", "image/webp", true, "Modern format"⟩ ∧
    getFormatInfoJs "avif" =
      JsLookup.descriptor ⟨"avif", "image/avif", true, "Next-gen format"⟩ ∧
    getFormatInfoJs "bmp" =
      JsLookup.descriptor ⟨"bmp", "image/bmp", false, "Uncompressed"⟩ ∧
    getFormatInfoJs "tiff" =
      JsLookup.descriptor ⟨"tiff", "image/tiff", false, "High quality"⟩ ∧
    getFormatInfoJs "ico" =
      JsLookup.descriptor ⟨"ico", "image/x-icon", false, "Icon format"⟩ ∧
    getFormatInfoJs "svg" =
      JsLookup.descriptor ⟨"svg", "image/svg+xml", false, "Vector format"⟩ ∧
    getFormatInfoJs "foo" = JsLookup.descriptor jpegInfo := by
  have hown : ∀ s fi, formatMap s = some fi →
      getFormatInfoJs s = JsLookup.descriptor fi := by
    intro s fi h
    simp [getFormatInfoJs, formatMapIndex, h, JsLookup.truthy]
  have hmiss : ∀ s, formatMap s = none → s ∉ objectProtoMemberNames →
      getFormatInfoJs s = JsLookup.descriptor jpegInfo := by
    intro s h hs
    simp [getFormatInfoJs, formatMapIndex, h, hs, JsLookup.truthy]
  have hproto : ∀ s, s ∈ objectProtoMemberNames →
      getFormatInfoJs s = JsLookup.protoMember s := by
    intro s hs
    simp only [objectProtoMemberNames, List.mem_cons, List.not_mem_nil,
      or_false] at hs
    rcases hs with rfl | rfl | rfl | rfl | rfl | rfl | rfl | rfl | rfl |
      rfl | rfl | rfl <;> decide
  refine ⟨hown, hmiss, hproto, fun s hs => ?_,
          ?_, ?_, ?_, ?_, ?_, ?_, ?_, ?_, ?_⟩
  · rcases hfm : formatMap s with _ | fi
    · rw [hmiss s hfm hs]
      simp [getFormatInfo, hfm]
    · rw [hown s fi hfm]
      simp [getFormatInfo, hfm]
  all_goals decide

/-- Witness for the amended C6 at the unknown name "foo" and the catalog
key "png". -/
theorem getFormatInfo_jpeg_fallback_amended_witness :
    getFormatInfoJs "foo" = JsLookup.descriptor jpegInfo ∧
    getFormatInfoJs "png" =
      JsLookup.descriptor ⟨"png", "image/png", false, "Best for graphics"⟩ :=
  ⟨getFormatInfo_jpeg_fallback_amended.2.1 "foo" (by decide) (by decide),
   getFormatInfo_jpeg_fallback_amended.1 "png"
     ⟨"png", "image/png", false, "Best for graphics"⟩ (by decide)⟩

/-- C4: a file is accepted exactly when its MIME type is in the allow-list
and its size is at most 10 MiB; a pdf is rejected with the type error, an
oversized png with the size error, and a small webp is accepted. -/
theorem validateImageFile_spec :
    (∀ (t : String) (sz : ℕ),
      (validateImageFile ⟨t, sz⟩).valid = true ↔
        t ∈ allowedTypes ∧ sz ≤ maxFileSize) ∧
    validateImageFile ⟨"application/pdf", 100⟩ =
      ⟨false, some typeErrorMsg⟩ ∧
    validateImageFile ⟨"image/png", 11 * 1024 * 1024⟩ =
      ⟨false, some sizeErrorMsg⟩ ∧
    validateImageFile ⟨"image/webp", 1024⟩ = ⟨true, none⟩ := by
  refine ⟨fun t sz => ?_, by decide, by decide, by decide⟩
  unfold validateImageFile
  split_ifs with h1 h2 <;> simp_all

/-- C5: when the chosen format's descriptor has `supportsQuality = false`,
the encode request is independent of the quality option, so any
deterministic encoder produces identical output for any two qualities. -/
theorem compress_quality_ignored_without_support :
    ∀ (img : SourceImage) (fmt : String) (q1 q2 : ℚ) (ar : Bool),
      (getFormatInfo fmt).supportsQuality = false →
      compressEncodeArgs img ⟨q1, fmt, ar⟩ = compressEncodeArgs img ⟨q2, fmt, ar⟩ ∧
      ∀ encodedSize : EncodeRequest → ℕ,
        encodedSize (compressEncodeArgs img ⟨q1, fmt, ar⟩) =
          encodedSize (compressEncodeArgs img ⟨q2, fmt, ar⟩) := by
  intro img fmt q1 q2 ar h
  have hargs : compressEncodeArgs img ⟨q1, fmt, ar⟩ =
      compressEncodeArgs img ⟨q2, fmt, ar⟩ := by
    simp [compressEncodeArgs, h]
  exact ⟨hargs, fun f => congrArg f hargs⟩

/-- Witness for C5 at format png with qualities 50 and 90. -/
theorem compress_quality_ignored_without_support_witness :
    compressEncodeArgs ⟨100, 100, 0⟩ ⟨50, "png", true⟩ =
      compressEncodeArgs ⟨100, 100, 0⟩ ⟨90, "png", true⟩ :=
  (compress_quality_ignored_without_support ⟨100, 100, 0⟩ "png" 50 90 true
    (by decide)).1

/-- C7 counterexample: at brightness = contrast = saturation = 100,
blur = -1 and no preset, the source builds an empty chain while the claim's
chain (blur contributes whenever nonzero) is nonempty. -/
theorem filterChain_blur_counterexample :
    filterList ⟨100, 100, 100, -1, "none"⟩ = #[] ∧
    claimFilterChain ⟨100, 100, 100, -1, "none"⟩ ≠ [] ∧
    (filterList ⟨100, 100, 100, -1, "none"⟩).toList ≠
      claimFilterChain ⟨100, 100, 100, -1, "none"⟩ := by
  refine ⟨rfl, ?_, ?_⟩
  · norm_num [claimFilterChain, presetFilters]
    exact List.cons_ne_nil _ _
  · rw [show filterList ⟨100, 100, 100, -1, "none"⟩ = #[] from rfl]
    norm_num [claimFilterChain, presetFilters]
    exact List.cons_ne_nil _ _

/-- C7 amended: the chain built by the source equals the claim's ordered
chain with blur contributing only when strictly positive, and the preset
expansions are exactly the table's. -/
theorem filterChain_amended (o : FilterOptions) :
    (filterList o).toList = amendedFilterChain o ∧
    applyFilters o = String.intercalate " " (amendedFilterChain o) ∧
    presetFilters "grayscale" = ["grayscale(100%)"] ∧
    presetFilters "sepia" = ["sepia(100%)"] ∧
    presetFilters "vintage" = ["sepia(50%)", "contrast(120%)", "brightness(90%)"] ∧
    presetFilters "cool" = ["hue-rotate(180deg)", "saturate(120%)"] ∧
    presetFilters "warm" = ["hue-rotate(30deg)", "saturate(110%)", "brightness(110%)"] ∧
    presetFilters "noir" = ["grayscale(100%)", "contrast(150%)", "brightness(80%)"] ∧
    presetFilters "vivid" = ["saturate(150%)", "contrast(110%)", "brightness(105%)"] :=
  ⟨filterList_toList o, by rw [applyFilters, filterList_toList],
   rfl, rfl, rfl, rfl, rfl, rfl, rfl⟩

/-- C10: with all numeric adjustments neutral (blur at or below zero) and a
filter name outside the preset table, the element's filter is assigned the
empty string, and the unrecognized name contributes no filter function. -/
theorem applyFilters_neutral_clears (o : FilterOptions)
    (hb : o.brightness = 100) (hc : o.contrast = 100)
    (hs : o.saturation = 100) (hk : o.blur ≤ 0)
    (hf : o.filter ∉ presetNames) :
    applyFilters o = "" ∧ presetFilters o.filter = [] := by
  have hp := presetFilters_of_not_mem o.filter hf
  refine ⟨?_, hp⟩
  rw [applyFilters, filterList_toList]
  rw [amendedFilterChain, hp]
  simp [hb, hc, hs, not_lt.mpr hk, String.intercalate]

/-- Witness for C10 at the all-neutral options with preset name "none". -/
theorem applyFilters_neutral_clears_witness :
    applyFilters ⟨100, 100, 100, 0, "none"⟩ = "" ∧
    presetFilters "none" = [] :=
  applyFilters_neutral_clears ⟨100, 100, 100, 0, "none"⟩ rfl rfl rfl
    (by norm_num) (by decide)

/-- C9: `setCropSettings` sets exactly the fields present in the patch and
leaves absent fields unchanged (in particular a patch holding only
`enabled` changes nothing else), and `getCropSettings` returns a fresh
copy, so mutating the returned object leaves the manager's state intact. -/
theorem setCropSettings_merge_and_defensive_copy :
    (∀ s p, p.x = none → (setCropSettings s p).x = s.x) ∧
    (∀ s p v, p.x = some v → (setCropSettings s p).x = v) ∧
    (∀ s p, p.y = none → (setCropSettings s p).y = s.y) ∧
    (∀ s p v, p.y = some v → (setCropSettings s p).y = v) ∧
    (∀ s p, p.width = none → (setCropSettings s p).width = s.width) ∧
    (∀ s p v, p.width = some v → (setCropSettings s p).width = v) ∧
    (∀ s p, p.height = none → (setCropSettings s p).height = s.height) ∧
    (∀ s p v, p.height = some v → (setCropSettings s p).height = v) ∧
    (∀ s p, p.enabled = none → (setCropSettings s p).enabled = s.enabled) ∧
    (∀ s p v, p.enabled = some v → (setCropSettings s p).enabled = v) ∧
    (∀ s b, setCropSettings s ⟨none, none, none, none, some b⟩ =
      { s with enabled := b }) ∧
    (∀ (h : Heap) (m : ℕ) (v : CropSettings), m < h.next →
      (getCropSettingsAlloc m h).2.read (getCropSettingsAlloc m h).1 = h.read m ∧
      ((getCropSettingsAlloc m h).2.write (getCropSettingsAlloc m h).1 v).read m =
        h.read m) := by
  refine ⟨fun s p h => by simp [setCropSettings, h],
          fun s p v h => by simp [setCropSettings, h],
          fun s p h => by simp [setCropSettings, h],
          fun s p v h => by simp [setCropSettings, h],
          fun s p h => by simp [setCropSettings, h],
          fun s p v h => by simp [setCropSettings, h],
          fun s p h => by simp [setCropSettings, h],
          fun s p v h => by simp [setCropSettings, h],
          fun s p h => by simp [setCropSettings, h],
          fun s p v h => by simp [setCropSettings, h],
          fun s b => by cases s; simp [setCropSettings],
          fun h m v hm => ?_⟩
  have hne : m ≠ h.next := Nat.ne_of_lt hm
  constructor
  · simp [getCropSettingsAlloc, Heap.alloc, Heap.read]
  · simp [getCropSettingsAlloc, Heap.alloc, Heap.read, Heap.write, hne]

/-- Witness for C9 on a one-object heap. -/
theorem setCropSettings_merge_and_defensive_copy_witness :
    ((getCropSettingsAlloc 0 ⟨fun _ => defaultCrop, 1⟩).2.write
        (getCropSettingsAlloc 0 ⟨fun _ => defaultCrop, 1⟩).1
        ⟨5, 5, 20, 20, true⟩).read 0 =
      Heap.read ⟨fun _ => defaultCrop, 1⟩ 0 :=
  (setCropSettings_merge_and_defensive_copy.2.2.2.2.2.2.2.2.2.2.2
    ⟨fun _ => defaultCrop, 1⟩ 0 ⟨5, 5, 20, 20, true⟩ (by decide)).2

/-- C2: with crop disabled, `applyCrop` yields a canvas at the source's
natural size containing the full source; with crop enabled it converts the
percentage rectangle to pixels, sizes the canvas to the cropped dimensions
and draws exactly that sub-rectangle with no scaling; in particular
`{x: 25, y: 25, width: 50, height: 50}` on a 200×200 source yields a
100×100 canvas sampled from pixel region (50,50)-(150,150). -/
theorem applyCrop_spec :
    ∀ (s : CropSettings) (naturalWidth naturalHeight : ℚ),
      (s.enabled = false →
        applyCrop s naturalWidth naturalHeight =
          { canvasWidth := naturalWidth, canvasHeight := naturalHeight,
            draw := ⟨0, 0, naturalWidth, naturalHeight,
                     0, 0, naturalWidth, naturalHeight⟩,
            croppedWidth := naturalWidth, croppedHeight := naturalHeight }) ∧
      (s.enabled = true →
        applyCrop s naturalWidth naturalHeight =
          { canvasWidth := s.width / 100 * naturalWidth,
            canvasHeight := s.height / 100 * naturalHeight,
            draw := ⟨s.x / 100 * naturalWidth, s.y / 100 * naturalHeight,
                     s.width / 100 * naturalWidth, s.height / 100 * naturalHeight,
                     0, 0,
                     s.width / 100 * naturalWidth, s.height / 100 * naturalHeight⟩,
            croppedWidth := s.width / 100 * naturalWidth,
            croppedHeight := s.height / 100 * naturalHeight }) ∧
      ((applyCrop s naturalWidth naturalHeight).draw.sw =
        (applyCrop s naturalWidth naturalHeight).draw.dw ∧
       (applyCrop s naturalWidth naturalHeight).draw.sh =
        (applyCrop s naturalWidth naturalHeight).draw.dh) ∧
      applyCrop ⟨25, 25, 50, 50, true⟩ 200 200 =
        { canvasWidth := 100, canvasHeight := 100,
          draw := ⟨50, 50, 100, 100, 0, 0, 100, 100⟩,
          croppedWidth := 100, croppedHeight := 100 } := by
  intro s naturalWidth naturalHeight
  refine ⟨fun h => by simp [applyCrop, h],
          fun h => by simp [applyCrop, h],
          ?_, ?_⟩
  · rcases s with ⟨x, y, w, ht, e⟩
    cases e <;> simp [applyCrop]
  · norm_num [applyCrop]

/-- Witness for C2 at the concrete disabled and enabled inputs. -/
theorem applyCrop_spec_witness :
    applyCrop ⟨0, 0, 100, 100, false⟩ 7 5 =
      { canvasWidth := 7, canvasHeight := 5,
        draw := ⟨0, 0, 7, 5, 0, 0, 7, 5⟩,
        croppedWidth := 7, croppedHeight := 5 } ∧
    applyCrop ⟨25, 25, 50, 50, true⟩ 200 200 =
      { canvasWidth := 50 / 100 * 200, canvasHeight := 50 / 100 * 200,
        draw := ⟨25 / 100 * 200, 25 / 100 * 200, 50 / 100 * 200, 50 / 100 * 200,
                 0, 0, 50 / 100 * 200, 50 / 100 * 200⟩,
        croppedWidth := 50 / 100 * 200, croppedHeight := 50 / 100 * 200 } :=
  ⟨(applyCrop_spec ⟨0, 0, 100, 100, false⟩ 7 5).1 rfl,
   (applyCrop_spec ⟨25, 25, 50, 50, true⟩ 200 200).2.1 rfl⟩

/-- C1 fails on the code: from the valid rectangle
`{x: 0, y: 0, width: 50, height: 50}`, a single nw-handle resize with
`deltaXPercent = -60` produces `{x: 0, width: 110}`, so `x + width = 110`
exceeds 100 — the handler clamps `x ≥ 0` and `width ≥ 10` but never
re-clamps the right edge when the origin clamp engages. -/
theorem cropUpdate_nw_violates_invariant :
    cropInvariant ⟨0, 0, 50, 50, true⟩ ∧
    cropUpdate ⟨0, 0, 50, 50, true⟩ DragMode.nw (-60) 0 =
      ⟨0, 0, 110, 50, true⟩ ∧
    ¬ cropInvariant (cropUpdate ⟨0, 0, 50, 50, true⟩ DragMode.nw (-60) 0) := by
  have hupd : cropUpdate ⟨0, 0, 50, 50, true⟩ DragMode.nw (-60) 0 =
      ⟨0, 0, 110, 50, true⟩ := by
    simp [cropUpdate, max_def, min_def]
    norm_num
  refine ⟨by simp [cropInvariant]; norm_num, hupd, ?_⟩
  rw [hupd]
  simp [cropInvariant]
  norm_num

end Solanam
